import Mathlib

/-!
Shallow embedding of the booking / payment / notification core of the
Dubai Travel Agency FastAPI backend.

Each table row type mirrors the SQLModel classes in `models.py`; each
operation mirrors one route handler:
  * `create_booking`        — `routers/bookings.py`, `create_booking`
  * `cancel_booking`        — `routers/bookings.py`, `cancel_booking`
  * `update_booking_status` — `routers/admin.py`, `update_booking_status`
  * `update_package`        — `routers/packages.py`, `update_package`
  * `create_payment`        — `routers/payments.py`, `create_payment`
  * `send_notification`     — `services/notification_service.py`,
                              `NotificationService.send_notification`

The database is modelled as primary-key-indexed stores (`Nat → Option row`)
plus an append-only payment list.  Currency amounts (`float` in the
source) are modelled as `ℚ`; wall-clock times as `Nat` tick parameters.
Each handler returns its HTTP-level outcome together with the state left
behind after its commits (an error raised before any mutating statement
leaves the state unchanged, exactly as in the source where the session is
discarded without a commit).

The ORM executes `SELECT`-then-`UPDATE` with no row lock and no
conditional update, so a handler is faithfully split into a snapshot
phase (the `session.exec(select(...)).first()` call, which copies the row
into the session) and a commit phase (validation against the snapshot
plus write-back of values computed from the snapshot).  The sequential
handler is exactly the composition of the two phases; interleaving the
phases of two requests models two concurrent transactions under read
committed isolation.
-/

/-- `BookingStatus` enum from `models.py`. -/
inductive BookingStatus
  | pending
  | confirmed
  | cancelled
  | completed
  deriving DecidableEq, Repr

/-- `PaymentStatus` enum from `models.py`. -/
inductive PaymentStatus
  | pending
  | paid
  | failed
  | refunded
  deriving DecidableEq, Repr

/-- `PaymentMethod` enum from `models.py`. -/
inductive PaymentMethod
  | stripe
  | paypal
  | paytabs
  deriving DecidableEq, Repr

/-- `UserRole` enum from `models.py`. -/
inductive UserRole
  | customer
  | admin
  | staff
  | superAdmin
  deriving DecidableEq, Repr

/-- The fields of `models.Package` that the booking core reads or writes. -/
structure Package where
  id : Nat
  price : ℚ
  minTravelers : Nat
  maxTravelers : Nat
  availability : Int
  isActive : Bool
  updatedAt : Option Nat
  deriving DecidableEq, Repr

/-- The fields of `models.User` that the booking core reads. -/
structure UserRow where
  id : Nat
  role : UserRole
  deriving DecidableEq, Repr

/-- The fields of `models.Booking` that the booking core reads or writes. -/
structure Booking where
  id : Nat
  userId : Nat
  packageId : Nat
  travelDate : Nat
  travelersCount : Nat
  totalPrice : ℚ
  status : BookingStatus
  paymentStatus : PaymentStatus
  bookingReference : String
  updatedAt : Option Nat
  deriving DecidableEq, Repr

/-- The fields of `models.Payment` that the payment route reads or writes. -/
structure Payment where
  id : Nat
  bookingId : Nat
  amount : ℚ
  currency : String
  paymentMethod : PaymentMethod
  status : PaymentStatus
  failureReason : Option String
  externalReference : Option String
  deriving DecidableEq, Repr

/-- Distinguishable `detail` payloads of the `HTTPException(400, ...)`
raises in the booking and payment routes. -/
inductive ErrDetail
  | travelersOutOfRange (lo hi : Nat)
  | notEnoughAvailability
  | bookingCannotBeCancelled
  | paymentAlreadyCompleted
  | paymentFailed (reason : String)
  deriving DecidableEq, Repr

/-- The literal `detail` string each `ErrDetail` stands for in the source. -/
def ErrDetail.detailString : ErrDetail → String
  | .travelersOutOfRange lo hi =>
      "Travelers count must be between " ++ toString lo ++ " and " ++ toString hi
  | .notEnoughAvailability => "Not enough availability for this package"
  | .bookingCannotBeCancelled => "Booking cannot be cancelled"
  | .paymentAlreadyCompleted => "Payment already completed for this booking"
  | .paymentFailed reason => "Payment failed: " ++ reason

/-- `HTTPException` outcomes raised by the modelled handlers
(404 / 403 / 400 with a detail payload). -/
inductive ApiError
  | notFound (detail : String)
  | forbidden (detail : String)
  | badRequest (detail : ErrDetail)
  deriving DecidableEq, Repr

/-- The persistent state the modelled handlers touch: the `package` and
`booking` tables keyed by primary key, and the `payment` table as the
append-only list of inserted rows. -/
structure DB where
  packages : Nat → Option Package
  bookings : Nat → Option Booking
  payments : List Payment

/-- Overwrite one primary key of a keyed store (the effect of
`session.commit()` flushing a dirty or newly added row). -/
def storePut (store : Nat → Option α) (key : Nat) (row : α) : Nat → Option α :=
  fun i => if i = key then some row else store i

/-- Request body of `POST /bookings/` (`schemas.BookingRequest`),
restricted to the fields the handler logic uses. -/
structure BookingRequest where
  packageId : Nat
  travelDate : Nat
  travelersCount : Nat
  deriving DecidableEq, Repr

/-- Success payload of `POST /bookings/` (`booking_id`,
`booking_reference`, `total_price`). -/
structure BookingOk where
  bookingId : Nat
  bookingReference : String
  totalPrice : ℚ
  deriving DecidableEq, Repr

/-- `session.exec(select(Package).where(Package.id == pid, Package.is_active
== True)).first()` — the snapshot phase of `create_booking`: copy the
active package row into the request's session. -/
def loadActivePackage (db : DB) (pid : Nat) : Option Package :=
  match db.packages pid with
  | none => none
  | some pkg => if pkg.isActive then some pkg else none

/-- The rest of `create_booking` (`routers/bookings.py` lines 26-77),
run against the session snapshot `snap`: validation, price computation,
booking insert, availability decrement computed from the snapshot, and
commit.  `newId` is the primary key the database assigns to the inserted
booking and `ref` the generated booking reference. -/
def create_booking_commit (db : DB) (snap : Option Package) (uid : Nat)
    (req : BookingRequest) (newId : Nat) (ref : String) :
    Except ApiError BookingOk × DB :=
  match snap with
  | none => (.error (.notFound "Package not found"), db)
  | some pkg =>
    if req.travelersCount < pkg.minTravelers ∨ req.travelersCount > pkg.maxTravelers then
      (.error (.badRequest (.travelersOutOfRange pkg.minTravelers pkg.maxTravelers)), db)
    else if pkg.availability < (req.travelersCount : Int) then
      (.error (.badRequest .notEnoughAvailability), db)
    else
      let totalPrice : ℚ := pkg.price * (req.travelersCount : ℚ)
      let booking : Booking :=
        { id := newId
          userId := uid
          packageId := req.packageId
          travelDate := req.travelDate
          travelersCount := req.travelersCount
          totalPrice := totalPrice
          status := .pending
          paymentStatus := .pending
          bookingReference := ref
          updatedAt := none }
      let pkg' : Package := { pkg with availability := pkg.availability - (req.travelersCount : Int) }
      (.ok { bookingId := newId, bookingReference := ref, totalPrice := totalPrice },
       { db with
           bookings := storePut db.bookings newId booking
           packages := storePut db.packages req.packageId pkg' })

/-- `POST /bookings/` (`routers/bookings.py`, `create_booking`) as one
sequential transaction: snapshot phase followed by commit phase. -/
def create_booking (db : DB) (uid : Nat) (req : BookingRequest)
    (newId : Nat) (ref : String) : Except ApiError BookingOk × DB :=
  create_booking_commit db (loadActivePackage db req.packageId) uid req newId ref

/-- `PUT /bookings/{id}/cancel` (`routers/bookings.py`, `cancel_booking`,
lines 186-220): lookup, ownership check, terminal-status check, set
status Cancelled, restore package availability, commit.  `now` models
`datetime.utcnow()`. -/
def cancel_booking (db : DB) (user : UserRow) (bookingId : Nat) (now : Nat) :
    Except ApiError Unit × DB :=
  match db.bookings bookingId with
  | none => (.error (.notFound "Booking not found"), db)
  | some booking =>
    if booking.userId ≠ user.id then
      (.error (.forbidden "Not authorized to cancel this booking"), db)
    else if booking.status = .cancelled ∨ booking.status = .completed then
      (.error (.badRequest .bookingCannotBeCancelled), db)
    else
      let booking' : Booking := { booking with status := .cancelled, updatedAt := some now }
      let db' : DB := { db with bookings := storePut db.bookings bookingId booking' }
      match db.packages booking.packageId with
      | some pkg =>
          (.ok (),
           { db' with
               packages := storePut db.packages booking.packageId
                 { pkg with availability := pkg.availability + (booking.travelersCount : Int) } })
      | none => (.ok (), db')

/-- `PUT /admin/bookings/{id}/status` (`routers/admin.py`,
`update_booking_status`): lookup, set the requested status and
`updated_at`, commit.  No other table is touched. -/
def update_booking_status (db : DB) (bookingId : Nat) (newStatus : BookingStatus)
    (now : Nat) : Except ApiError Unit × DB :=
  match db.bookings bookingId with
  | none => (.error (.notFound "Booking not found"), db)
  | some booking =>
      (.ok (),
       { db with
           bookings := storePut db.bookings bookingId
             { booking with status := newStatus, updatedAt := some now } })

/-- Body of `PUT /packages/{id}` (`models.PackageUpdate`), restricted to
the fields present in this embedding; `none` models an unset field that
`exclude_unset=True` skips. -/
structure PackageUpdate where
  price : Option ℚ := none
  minTravelers : Option Nat := none
  maxTravelers : Option Nat := none
  availability : Option Int := none
  isActive : Option Bool := none
  deriving DecidableEq, Repr

/-- `PUT /packages/{id}` (`routers/packages.py`, `update_package`):
lookup, `setattr` every set field, stamp `updated_at`, commit. -/
def update_package (db : DB) (pid : Nat) (upd : PackageUpdate) (now : Nat) :
    Except ApiError Unit × DB :=
  match db.packages pid with
  | none => (.error (.notFound "Package not found"), db)
  | some pkg =>
      let pkg' : Package :=
        { pkg with
            price := upd.price.getD pkg.price
            minTravelers := upd.minTravelers.getD pkg.minTravelers
            maxTravelers := upd.maxTravelers.getD pkg.maxTravelers
            availability := upd.availability.getD pkg.availability
            isActive := upd.isActive.getD pkg.isActive
            updatedAt := some now }
      (.ok (), { db with packages := storePut db.packages pid pkg' })

/-- Normalized result dictionary returned by
`payment_service.process_payment` (`services/payment_service.py`): the
`success` flag, an optional `error` string, and the provider-specific
reference keys the route reads back. -/
structure ProviderResult where
  success : Bool
  error : Option String := none
  paymentIntentId : Option String := none
  orderId : Option String := none
  tranRef : Option String := none
  deriving DecidableEq, Repr

/-- Success payload of `POST /payments/create` (`payment_id`, `amount`,
`currency`). -/
structure PaymentOk where
  paymentId : Nat
  amount : ℚ
  currency : String
  deriving DecidableEq, Repr

/-- The `select(Payment).where(Payment.booking_id == bid, Payment.status ==
PaymentStatus.PAID).first()` guard query of `create_payment`. -/
def findPaidPayment (payments : List Payment) (bookingId : Nat) : Option Payment :=
  payments.find? (fun p => p.bookingId = bookingId ∧ p.status = .paid)

/-- `POST /payments/create` (`routers/payments.py`, `create_payment`):
booking lookup, ownership check, already-paid guard, insert of a Pending
payment row, provider call, and either the failure transition (status
Failed plus reason, then a 400) or the recording of the provider's
external reference.  `providerResult` is the value the external provider
call returns; the third component reports whether
`payment_service.process_payment` was invoked at all. -/
def create_payment (db : DB) (user : UserRow) (bookingId : Nat)
    (method : PaymentMethod) (providerResult : ProviderResult) (newPid : Nat) :
    Except ApiError PaymentOk × DB × Bool :=
  match db.bookings bookingId with
  | none => (.error (.notFound "Booking not found"), db, false)
  | some booking =>
    if booking.userId ≠ user.id then
      (.error (.forbidden "Not authorized to pay for this booking"), db, false)
    else if (findPaidPayment db.payments bookingId).isSome then
      (.error (.badRequest .paymentAlreadyCompleted), db, false)
    else
      let payment : Payment :=
        { id := newPid
          bookingId := bookingId
          amount := booking.totalPrice
          currency := "AED"
          paymentMethod := method
          status := .pending
          failureReason := none
          externalReference := none }
      if providerResult.success = false then
        let reason := providerResult.error.getD "Unknown error"
        let payment' : Payment := { payment with status := .failed, failureReason := some reason }
        (.error (.badRequest (.paymentFailed reason)),
         { db with payments := db.payments ++ [payment'] }, true)
      else
        let extRef : Option String :=
          match method with
          | .stripe => providerResult.paymentIntentId
          | .paypal => providerResult.orderId
          | .paytabs => providerResult.tranRef
        let payment' : Payment := { payment with externalReference := extRef }
        (.ok { paymentId := newPid, amount := payment.amount, currency := payment.currency },
         { db with payments := db.payments ++ [payment'] }, true)

/-- `NotificationStatus` enum from `models.py`. -/
inductive NotificationStatus
  | unread
  | read
  | archived
  deriving DecidableEq, Repr

/-- The fields of `models.Notification` that `send_notification` reads or
writes. -/
structure Notification where
  id : Nat
  userId : Option Nat
  status : NotificationStatus
  sentAt : Option Nat
  readAt : Option Nat
  deriving DecidableEq, Repr

/-- The fields of `models.User` the notification service reads: delivery
destinations. -/
structure NotifUser where
  id : Nat
  email : Option String
  mobile : Option String
  deriving DecidableEq, Repr

/-- Behaviour of one external delivery channel attempt (SMTP / SMS
gateway): it either completes or raises with a message. -/
inductive DeliveryOutcome
  | ok
  | raised (msg : String)
  deriving DecidableEq, Repr

/-- State the notification service touches: notification and user rows
keyed by primary key. -/
structure NotifDB where
  notifications : Nat → Option Notification
  users : Nat → Option NotifUser

/-- `NotificationService._send_email_notification`: the delivery attempt
is wrapped in `try/except` that logs and swallows any exception, so the
call always returns and never mutates rows. -/
def sendEmailNotification (outcome : DeliveryOutcome) : Unit :=
  match outcome with
  | .ok => ()
  | .raised _ => ()

/-- `NotificationService._send_sms_notification`: same swallow-all
structure as the email channel. -/
def sendSmsNotification (outcome : DeliveryOutcome) : Unit :=
  match outcome with
  | .ok => ()
  | .raised _ => ()

/-- `NotificationService.send_notification`
(`services/notification_service.py` lines 139-166): load the
notification, attempt each channel the user has a destination for, stamp
`sent_at`, commit, return `True`; return `False` only when the
notification row is absent.  The channel outcomes are passed in as the
external world's behaviour. -/
def send_notification (db : NotifDB) (notificationId : Nat) (now : Nat)
    (emailOutcome smsOutcome : DeliveryOutcome) : Bool × NotifDB :=
  match db.notifications notificationId with
  | none => (false, db)
  | some notification =>
      let user : Option NotifUser :=
        match notification.userId with
        | some uid => db.users uid
        | none => none
      let _ : Unit :=
        match user with
        | some u => if u.email.isSome then sendEmailNotification emailOutcome else ()
        | none => ()
      let _ : Unit :=
        match user with
        | some u => if u.mobile.isSome then sendSmsNotification smsOutcome else ()
        | none => ()
      (true,
       { db with
           notifications := storePut db.notifications notificationId
             { notification with sentAt := some now } })

/-- The cancellation route including its notification block
(`routers/bookings.py` lines 223-246): the email send is wrapped in
`try/except Exception: pass`, so whatever the delivery attempt does the
route still returns the success response built from the committed
cancellation. -/
def cancel_booking_route (db : DB) (user : UserRow) (bookingId : Nat) (now : Nat)
    (emailOutcome : DeliveryOutcome) : Except ApiError String × DB :=
  match cancel_booking db user bookingId now with
  | (.error e, db') => (.error e, db')
  | (.ok _, db') =>
      match emailOutcome with
      | .ok => (.ok "Booking cancelled successfully", db')
      | .raised _ => (.ok "Booking cancelled successfully", db')

/-! ## Sample rows used to instantiate the theorems on concrete inputs -/

/-- A concrete active package: price 1000, bounds 1..50, 10 open slots. -/
def pkgA : Package :=
  { id := 1, price := 1000, minTravelers := 1, maxTravelers := 50,
    availability := 10, isActive := true, updatedAt := none }

/-- A concrete pending booking of 2 travelers on `pkgA`, owned by user 1. -/
def bookingA : Booking :=
  { id := 1, userId := 1, packageId := 1, travelDate := 100, travelersCount := 2,
    totalPrice := 2000, status := .pending, paymentStatus := .pending,
    bookingReference := "DTA-0001", updatedAt := none }

/-- A concrete database holding `pkgA` and `bookingA` and no payments. -/
def dbA : DB :=
  { packages := fun i => if i = 1 then some pkgA else none
    bookings := fun i => if i = 1 then some bookingA else none
    payments := [] }

/-- The owner of `bookingA`. -/
def ownerUser : UserRow := { id := 1, role := .customer }

/-- A staff member who does not own `bookingA`. -/
def staffUser : UserRow := { id := 2, role := .staff }

/-! ## Helper lemmas -/

/-- Equation for the fully successful `create_booking` path: the booking
row inserted and the availability decrement written back. -/
theorem create_booking_success_eq (db : DB) (uid : Nat) (req : BookingRequest)
    (newId : Nat) (ref : String) (pkg : Package)
    (hpkg : db.packages req.packageId = some pkg)
    (hactive : pkg.isActive = true)
    (hlo : pkg.minTravelers ≤ req.travelersCount)
    (hhi : req.travelersCount ≤ pkg.maxTravelers)
    (hcap : (req.travelersCount : Int) ≤ pkg.availability) :
    create_booking db uid req newId ref =
      (.ok { bookingId := newId, bookingReference := ref,
             totalPrice := pkg.price * (req.travelersCount : ℚ) },
       { db with
           bookings := storePut db.bookings newId
             { id := newId, userId := uid, packageId := req.packageId,
               travelDate := req.travelDate, travelersCount := req.travelersCount,
               totalPrice := pkg.price * (req.travelersCount : ℚ),
               status := .pending, paymentStatus := .pending,
               bookingReference := ref, updatedAt := none }
           packages := storePut db.packages req.packageId
             { pkg with availability := pkg.availability - (req.travelersCount : Int) } }) := by
  have hsnap : loadActivePackage db req.packageId = some pkg := by
    unfold loadActivePackage
    rw [hpkg]
    simp [hactive]
  unfold create_booking
  rw [hsnap]
  simp only [create_booking_commit]
  rw [if_neg (by omega), if_neg (by omega)]

/-- `storePut` read back at the written key. -/
theorem storePut_same (store : Nat → Option α) (key : Nat) (row : α) :
    storePut store key row key = some row := by
  simp [storePut]

/-- `storePut` read back at a different key. -/
theorem storePut_other (store : Nat → Option α) (key i : Nat) (row : α)
    (h : i ≠ key) : storePut store key row i = store i := by
  simp [storePut, h]

/-! ## Claim theorems -/

/-- C6: if the requested travelers count exceeds the package's current
availability, `create_booking` fails with the capacity-exceeded rejection
(`HTTPException 400, "Not enough availability for this package"`) and the
database is left exactly as it was: no booking row is created and the
package availability is unchanged. -/
theorem C6_capacity_exceeded_rejects_without_persistence
    (db : DB) (uid : Nat) (req : BookingRequest) (newId : Nat) (ref : String)
    (pkg : Package)
    (hpkg : db.packages req.packageId = some pkg)
    (hactive : pkg.isActive = true)
    (hlo : pkg.minTravelers ≤ req.travelersCount)
    (hhi : req.travelersCount ≤ pkg.maxTravelers)
    (hcap : pkg.availability < (req.travelersCount : Int)) :
    create_booking db uid req newId ref =
      (.error (.badRequest .notEnoughAvailability), db) := by
  have hsnap : loadActivePackage db req.packageId = some pkg := by
    unfold loadActivePackage
    rw [hpkg]
    simp [hactive]
  unfold create_booking
  rw [hsnap]
  simp only [create_booking_commit]
  rw [if_neg (by omega), if_pos hcap]

/-- Witness for C6: a request for 11 travelers against `pkgA`
(availability 10) is rejected and the state is untouched. -/
theorem C6_capacity_exceeded_rejects_without_persistence_witness :
    create_booking dbA 1 { packageId := 1, travelDate := 7, travelersCount := 11 } 2 "DTA-W" =
      (.error (.badRequest .notEnoughAvailability), dbA) :=
  C6_capacity_exceeded_rejects_without_persistence dbA 1
    { packageId := 1, travelDate := 7, travelersCount := 11 } 2 "DTA-W" pkgA
    rfl rfl (by decide) (by decide) (by decide)

/-- Equation for the successful `cancel_booking` path when the package
row exists: status flips to Cancelled and the travelers are added back to
the package availability. -/
theorem cancel_booking_success_eq (db : DB) (user : UserRow) (bid now : Nat)
    (booking : Booking) (pkg : Package)
    (hb : db.bookings bid = some booking)
    (hown : booking.userId = user.id)
    (hc : booking.status ≠ .cancelled)
    (hd : booking.status ≠ .completed)
    (hp : db.packages booking.packageId = some pkg) :
    cancel_booking db user bid now =
      (.ok (),
       { db with
           bookings := storePut db.bookings bid
             { booking with status := .cancelled, updatedAt := some now }
           packages := storePut db.packages booking.packageId
             { pkg with availability := pkg.availability + (booking.travelersCount : Int) } }) := by
  unfold cancel_booking
  rw [hb]
  simp only [hown, ne_eq, not_true_eq_false, if_false, hp]
  rw [if_neg (by simp [hc, hd])]

/-- C5: `total_price` is `package.price * travelers_count` computed at
creation (both in the persisted row and in the response payload), and no
other modelled operation ever rewrites a booking's `total_price`:
package updates (including price changes) and payment creation leave the
booking table untouched, and cancellation and the admin status override
preserve every booking's `total_price`. -/
theorem C5_total_price_fixed_at_creation :
    (∀ (db : DB) (uid : Nat) (req : BookingRequest) (newId : Nat) (ref : String)
       (pkg : Package),
       db.packages req.packageId = some pkg → pkg.isActive = true →
       pkg.minTravelers ≤ req.travelersCount →
       req.travelersCount ≤ pkg.maxTravelers →
       (req.travelersCount : Int) ≤ pkg.availability →
       (∃ b, ((create_booking db uid req newId ref).2).bookings newId = some b ∧
          b.totalPrice = pkg.price * (req.travelersCount : ℚ)) ∧
       (create_booking db uid req newId ref).1 =
         .ok { bookingId := newId, bookingReference := ref,
               totalPrice := pkg.price * (req.travelersCount : ℚ) }) ∧
    (∀ (db : DB) (pid : Nat) (upd : PackageUpdate) (now : Nat),
       ((update_package db pid upd now).2).bookings = db.bookings) ∧
    (∀ (db : DB) (user : UserRow) (bid now i : Nat) (b' : Booking),
       ((cancel_booking db user bid now).2).bookings i = some b' →
       ∃ b, db.bookings i = some b ∧ b'.totalPrice = b.totalPrice) ∧
    (∀ (db : DB) (bid : Nat) (s : BookingStatus) (now i : Nat) (b' : Booking),
       ((update_booking_status db bid s now).2).bookings i = some b' →
       ∃ b, db.bookings i = some b ∧ b'.totalPrice = b.totalPrice) ∧
    (∀ (db : DB) (user : UserRow) (bid : Nat) (m : PaymentMethod)
       (pr : ProviderResult) (npid : Nat),
       ((create_payment db user bid m pr npid).2.1).bookings = db.bookings) := by
  refine ⟨?_, ?_, ?_, ?_, ?_⟩
  · intro db uid req newId ref pkg hpkg hactive hlo hhi hcap
    rw [create_booking_success_eq db uid req newId ref pkg hpkg hactive hlo hhi hcap]
    exact ⟨⟨_, storePut_same _ _ _, rfl⟩, rfl⟩
  · intro db pid upd now
    unfold update_package
    cases h : db.packages pid <;> simp
  · intro db user bid now i b' h
    unfold cancel_booking at h
    split at h
    · exact ⟨b', h, rfl⟩
    · rename_i booking hbeq
      split at h
      · exact ⟨b', h, rfl⟩
      · split at h
        · exact ⟨b', h, rfl⟩
        · split at h <;>
          · simp only [storePut] at h
            by_cases hi : i = bid
            · subst hi
              rw [if_pos rfl] at h
              cases h
              exact ⟨booking, hbeq, rfl⟩
            · rw [if_neg hi] at h
              exact ⟨b', h, rfl⟩
  · intro db bid s now i b' h
    unfold update_booking_status at h
    cases hb : db.bookings bid with
    | none => rw [hb] at h; exact ⟨b', h, rfl⟩
    | some booking =>
      rw [hb] at h
      simp only [storePut] at h
      by_cases hi : i = bid
      · subst hi
        rw [if_pos rfl] at h
        cases h
        exact ⟨booking, hb, rfl⟩
      · rw [if_neg hi] at h
        exact ⟨b', h, rfl⟩
  · intro db user bid m pr npid
    unfold create_payment
    split
    · rfl
    · split
      · rfl
      · split
        · rfl
        · split
          · rfl
          · rfl

/-- Witness for C5: instantiate the creation clause on `dbA` (price 1000,
2 travelers) and the package-update clause on a price change. -/
theorem C5_total_price_fixed_at_creation_witness :
    ((∃ b, ((create_booking dbA 1 { packageId := 1, travelDate := 7, travelersCount := 2 } 5 "DTA-W5").2).bookings 5 = some b ∧
        b.totalPrice = pkgA.price * (2 : ℚ)) ∧
     (create_booking dbA 1 { packageId := 1, travelDate := 7, travelersCount := 2 } 5 "DTA-W5").1 =
       .ok { bookingId := 5, bookingReference := "DTA-W5", totalPrice := pkgA.price * (2 : ℚ) }) ∧
    ((update_package dbA 1 { price := some 9999 } 3).2).bookings = dbA.bookings :=
  ⟨C5_total_price_fixed_at_creation.1 dbA 1
      { packageId := 1, travelDate := 7, travelersCount := 2 } 5 "DTA-W5" pkgA
      rfl rfl (by decide) (by decide) (by decide),
   C5_total_price_fixed_at_creation.2.1 dbA 1 { price := some 9999 } 3⟩

/-- C9: for every existing booking and every target status (including
when the current status is Cancelled or Completed), the admin override
`update_booking_status` succeeds, leaves the package table (and hence
every availability counter) and the payment table untouched, and rewrites
the booking row to exactly the old row with only `status` and
`updated_at` replaced; every other booking row is unchanged. -/
theorem C9_admin_status_override_no_capacity_side_effects
    (db : DB) (bid : Nat) (s : BookingStatus) (now : Nat) (b : Booking)
    (hb : db.bookings bid = some b) :
    (update_booking_status db bid s now).1 = .ok () ∧
    ((update_booking_status db bid s now).2).packages = db.packages ∧
    ((update_booking_status db bid s now).2).payments = db.payments ∧
    ((update_booking_status db bid s now).2).bookings bid =
      some { b with status := s, updatedAt := some now } ∧
    (∀ j, j ≠ bid → ((update_booking_status db bid s now).2).bookings j = db.bookings j) := by
  unfold update_booking_status
  rw [hb]
  exact ⟨rfl, rfl, rfl, storePut_same _ _ _, fun j hj => storePut_other _ _ _ _ hj⟩

/-- Witness for C9: override a Completed booking back to Confirmed on a
concrete database; packages and payments stay identical. -/
theorem C9_admin_status_override_no_capacity_side_effects_witness :
    (update_booking_status
        { packages := dbA.packages
          bookings := fun i => if i = 1 then some { bookingA with status := .completed } else none
          payments := [] } 1 .confirmed 9).1 = .ok () ∧
    ((update_booking_status
        { packages := dbA.packages
          bookings := fun i => if i = 1 then some { bookingA with status := .completed } else none
          payments := [] } 1 .confirmed 9).2).packages = dbA.packages ∧
    ((update_booking_status
        { packages := dbA.packages
          bookings := fun i => if i = 1 then some { bookingA with status := .completed } else none
          payments := [] } 1 .confirmed 9).2).payments = ([] : List Payment) ∧
    ((update_booking_status
        { packages := dbA.packages
          bookings := fun i => if i = 1 then some { bookingA with status := .completed } else none
          payments := [] } 1 .confirmed 9).2).bookings 1 =
      some { { bookingA with status := .completed } with status := .confirmed, updatedAt := some 9 } ∧
    (∀ j, j ≠ 1 → ((update_booking_status
        { packages := dbA.packages
          bookings := fun i => if i = 1 then some { bookingA with status := .completed } else none
          payments := [] } 1 .confirmed 9).2).bookings j =
        (fun i => if i = 1 then some { bookingA with status := .completed } else none : Nat → Option Booking) j) :=
  C9_admin_status_override_no_capacity_side_effects
    { packages := dbA.packages
      bookings := fun i => if i = 1 then some { bookingA with status := .completed } else none
      payments := [] } 1 .confirmed 9 { bookingA with status := .completed } rfl

/-- Equation for the `cancel_booking` path rejected by the terminal-status
guard (`"Booking cannot be cancelled"`): nothing is mutated. -/
theorem cancel_booking_invalid_state_eq (db : DB) (user : UserRow) (bid now : Nat)
    (booking : Booking)
    (hb : db.bookings bid = some booking)
    (hown : booking.userId = user.id)
    (hst : booking.status = .cancelled ∨ booking.status = .completed) :
    cancel_booking db user bid now =
      (.error (.badRequest .bookingCannotBeCancelled), db) := by
  unfold cancel_booking
  rw [hb]
  simp only [hown, ne_eq, not_true_eq_false, if_false]
  rw [if_pos hst]

/-- Equation for the `cancel_booking` path rejected by the lookup
(`404 "Booking not found"`): nothing is mutated. -/
theorem cancel_booking_not_found_eq (db : DB) (user : UserRow) (bid now : Nat)
    (hb : db.bookings bid = none) :
    cancel_booking db user bid now = (.error (.notFound "Booking not found"), db) := by
  unfold cancel_booking
  rw [hb]

/-- Equation for the `cancel_booking` path rejected by the ownership check
(`403 "Not authorized to cancel this booking"`): nothing is mutated.  The
check compares user ids only — the requester's role is never consulted. -/
theorem cancel_booking_forbidden_eq (db : DB) (user : UserRow) (bid now : Nat)
    (booking : Booking)
    (hb : db.bookings bid = some booking)
    (hown : booking.userId ≠ user.id) :
    cancel_booking db user bid now =
      (.error (.forbidden "Not authorized to cancel this booking"), db) := by
  unfold cancel_booking
  rw [hb]
  simp only [ne_eq]
  rw [if_pos hown]

/-- C2: booking `n` travelers decrements availability by `n`; a first
cancel by the owner succeeds, flips the booking to Cancelled and restores
the package row (hence its availability) to its exact pre-reservation
value; a second cancel of the same booking is rejected with the
invalid-state error and mutates nothing, so the release is applied
exactly once. -/
theorem C2_cancel_releases_exactly_once
    (db : DB) (uid : Nat) (role : UserRole) (req : BookingRequest) (newId : Nat)
    (ref : String) (now now2 : Nat) (pkg : Package)
    (hpkg : db.packages req.packageId = some pkg)
    (hactive : pkg.isActive = true)
    (hlo : pkg.minTravelers ≤ req.travelersCount)
    (hhi : req.travelersCount ≤ pkg.maxTravelers)
    (hcap : (req.travelersCount : Int) ≤ pkg.availability) :
    ∃ db1 db2 : DB,
      create_booking db uid req newId ref =
        (.ok { bookingId := newId, bookingReference := ref,
               totalPrice := pkg.price * (req.travelersCount : ℚ) }, db1) ∧
      db1.packages req.packageId =
        some { pkg with availability := pkg.availability - (req.travelersCount : Int) } ∧
      cancel_booking db1 { id := uid, role := role } newId now = (.ok (), db2) ∧
      db2.packages req.packageId = some pkg ∧
      (∃ b, db2.bookings newId = some b ∧ b.status = .cancelled) ∧
      cancel_booking db2 { id := uid, role := role } newId now2 =
        (.error (.badRequest .bookingCannotBeCancelled), db2) := by
  refine ⟨_, _,
    create_booking_success_eq db uid req newId ref pkg hpkg hactive hlo hhi hcap,
    storePut_same _ _ _,
    cancel_booking_success_eq _ _ _ _ _ _ (storePut_same _ _ _) rfl
      (by simp) (by simp) (storePut_same _ _ _),
    ?_, ?_, ?_⟩
  · simp [storePut, Int.sub_add_cancel]
  · exact ⟨_, storePut_same _ _ _, rfl⟩
  · exact cancel_booking_invalid_state_eq _ _ _ _ _ (storePut_same _ _ _) rfl (Or.inl rfl)

/-- Witness for C2: book 2 travelers on `pkgA` (availability 10 → 8),
cancel, availability back to 10, second cancel rejected. -/
theorem C2_cancel_releases_exactly_once_witness :
    ∃ db1 db2 : DB,
      create_booking dbA 1 { packageId := 1, travelDate := 7, travelersCount := 2 } 6 "DTA-W2" =
        (.ok { bookingId := 6, bookingReference := "DTA-W2",
               totalPrice := pkgA.price * (2 : ℚ) }, db1) ∧
      db1.packages 1 = some { pkgA with availability := pkgA.availability - (2 : Int) } ∧
      cancel_booking db1 { id := 1, role := .customer } 6 20 = (.ok (), db2) ∧
      db2.packages 1 = some pkgA ∧
      (∃ b, db2.bookings 6 = some b ∧ b.status = .cancelled) ∧
      cancel_booking db2 { id := 1, role := .customer } 6 21 =
        (.error (.badRequest .bookingCannotBeCancelled), db2) :=
  C2_cancel_releases_exactly_once dbA 1 .customer
    { packageId := 1, travelDate := 7, travelersCount := 2 } 6 "DTA-W2" 20 21 pkgA
    rfl rfl (by decide) (by decide) (by decide)

/-- Equation for the `create_payment` path rejected by the already-paid
guard: the error is returned with the state unchanged and, in particular,
before any provider invocation. -/
theorem create_payment_already_paid_eq (db : DB) (user : UserRow) (bid : Nat)
    (m : PaymentMethod) (pr : ProviderResult) (npid : Nat) (booking : Booking)
    (hb : db.bookings bid = some booking)
    (hown : booking.userId = user.id)
    (hpaid : (findPaidPayment db.payments bid).isSome = true) :
    create_payment db user bid m pr npid =
      (.error (.badRequest .paymentAlreadyCompleted), db, false) := by
  unfold create_payment
  rw [hb]
  simp only [hown, ne_eq, not_true_eq_false, if_false]
  rw [if_pos hpaid]

/-- C3: whenever a Paid payment row already exists for the booking (and
the booking exists and belongs to the requester, so the earlier guards do
not fire first), `create_payment` fails with the already-paid rejection,
the state is unchanged, and `payment_service.process_payment` is never
invoked — the guard runs before any provider call. -/
theorem C3_already_paid_rejected_before_any_provider_call
    (db : DB) (user : UserRow) (bid : Nat) (m : PaymentMethod) (pr : ProviderResult)
    (npid : Nat) (booking : Booking) (p : Payment)
    (hb : db.bookings bid = some booking)
    (hown : booking.userId = user.id)
    (hmem : p ∈ db.payments)
    (hpbid : p.bookingId = bid)
    (hppaid : p.status = .paid) :
    create_payment db user bid m pr npid =
      (.error (.badRequest .paymentAlreadyCompleted), db, false) := by
  apply create_payment_already_paid_eq db user bid m pr npid booking hb hown
  unfold findPaidPayment
  rw [List.find?_isSome]
  exact ⟨p, hmem, by simp [hpbid, hppaid]⟩

/-- Witness for C3: a database whose payment table holds a Paid row for
booking 1; a fresh payment attempt is rejected with state unchanged and
no provider call. -/
theorem C3_already_paid_rejected_before_any_provider_call_witness :
    create_payment
      { packages := dbA.packages, bookings := dbA.bookings
        payments := [{ id := 7, bookingId := 1, amount := 2000, currency := "AED",
                       paymentMethod := .stripe, status := .paid,
                       failureReason := none, externalReference := some "pi_1" }] }
      ownerUser 1 .stripe { success := true } 8 =
      (.error (.badRequest .paymentAlreadyCompleted),
       { packages := dbA.packages, bookings := dbA.bookings
         payments := [{ id := 7, bookingId := 1, amount := 2000, currency := "AED",
                        paymentMethod := .stripe, status := .paid,
                        failureReason := none, externalReference := some "pi_1" }] },
       false) :=
  C3_already_paid_rejected_before_any_provider_call _ ownerUser 1 .stripe
    { success := true } 8 bookingA
    { id := 7, bookingId := 1, amount := 2000, currency := "AED",
      paymentMethod := .stripe, status := .paid,
      failureReason := none, externalReference := some "pi_1" }
    rfl rfl (by simp) rfl rfl

/-- C4: when the provider reports `success=false`, `create_payment` raises
the payment-failed error, the persisted payment row ends in status Failed
carrying the reported reason, the booking table (hence the booking's
`status` and `payment_status`, still Pending) and the package table are
untouched, the payment table still holds no Paid row for this booking,
and a subsequent `create_payment` for the same booking is never rejected
by the already-paid guard. -/
theorem C4_provider_failure_records_failed_and_stays_retriable
    (db : DB) (user : UserRow) (bid : Nat) (m : PaymentMethod) (pr : ProviderResult)
    (npid : Nat) (booking : Booking)
    (hb : db.bookings bid = some booking)
    (hown : booking.userId = user.id)
    (hnopaid : findPaidPayment db.payments bid = none)
    (hfail : pr.success = false) :
    ∃ db' : DB,
      create_payment db user bid m pr npid =
        (.error (.badRequest (.paymentFailed (pr.error.getD "Unknown error"))), db', true) ∧
      db'.bookings = db.bookings ∧
      db'.packages = db.packages ∧
      db'.payments = db.payments ++
        [{ id := npid, bookingId := bid, amount := booking.totalPrice, currency := "AED",
           paymentMethod := m, status := .failed,
           failureReason := some (pr.error.getD "Unknown error"), externalReference := none }] ∧
      findPaidPayment db'.payments bid = none ∧
      (∀ (m2 : PaymentMethod) (pr2 : ProviderResult) (npid2 : Nat),
        (create_payment db' user bid m2 pr2 npid2).1 ≠
          .error (.badRequest .paymentAlreadyCompleted)) := by
  have heq : create_payment db user bid m pr npid =
      (.error (.badRequest (.paymentFailed (pr.error.getD "Unknown error"))),
       { db with payments := db.payments ++
           [{ id := npid, bookingId := bid, amount := booking.totalPrice, currency := "AED",
              paymentMethod := m, status := .failed,
              failureReason := some (pr.error.getD "Unknown error"),
              externalReference := none }] }, true) := by
    unfold create_payment
    rw [hb]
    simp only [hown, ne_eq, not_true_eq_false, if_false, hnopaid, Option.isSome_none,
      Bool.false_eq_true]
    rw [if_pos hfail]
  have hnopaid' : findPaidPayment (db.payments ++
      [{ id := npid, bookingId := bid, amount := booking.totalPrice, currency := "AED",
         paymentMethod := m, status := .failed,
         failureReason := some (pr.error.getD "Unknown error"),
         externalReference := none }]) bid = none := by
    unfold findPaidPayment at hnopaid ⊢
    rw [List.find?_append, hnopaid]
    simp
  refine ⟨_, heq, rfl, rfl, rfl, hnopaid', ?_⟩
  intro m2 pr2 npid2
  unfold create_payment
  rw [show (({ db with payments := db.payments ++
      [{ id := npid, bookingId := bid, amount := booking.totalPrice, currency := "AED",
         paymentMethod := m, status := .failed,
         failureReason := some (pr.error.getD "Unknown error"),
         externalReference := none }] } : DB)).bookings bid = some booking from hb]
  simp only [hown, ne_eq, not_true_eq_false, if_false, hnopaid', Option.isSome_none,
    Bool.false_eq_true]
  by_cases hs : pr2.success = false
  · rw [if_pos hs]
    simp
  · rw [if_neg hs]
    simp

/-- Witness for C4: a declined-card provider result against `dbA` records
a Failed payment with the reason, leaves the booking Pending, and a
retry is not blocked by the already-paid guard. -/
theorem C4_provider_failure_records_failed_and_stays_retriable_witness :
    ∃ db' : DB,
      create_payment dbA ownerUser 1 .stripe
          { success := false, error := some "card_declined" } 3 =
        (.error (.badRequest (.paymentFailed ((some "card_declined").getD "Unknown error"))), db', true) ∧
      db'.bookings = dbA.bookings ∧
      db'.packages = dbA.packages ∧
      db'.payments = dbA.payments ++
        [{ id := 3, bookingId := 1, amount := bookingA.totalPrice, currency := "AED",
           paymentMethod := .stripe, status := .failed,
           failureReason := some ((some "card_declined").getD "Unknown error"),
           externalReference := none }] ∧
      findPaidPayment db'.payments 1 = none ∧
      (∀ (m2 : PaymentMethod) (pr2 : ProviderResult) (npid2 : Nat),
        (create_payment db' ownerUser 1 m2 pr2 npid2).1 ≠
          .error (.badRequest .paymentAlreadyCompleted)) :=
  C4_provider_failure_records_failed_and_stays_retriable dbA ownerUser 1 .stripe
    { success := false, error := some "card_declined" } 3 bookingA rfl rfl rfl rfl

/-- C10: on provider success `create_payment` returns the success payload
and appends a payment row that records the provider's method-specific
external reference but still has status Pending; and for every provider
outcome whatsoever, the booking table is untouched and the payment table
still holds no Paid row for this booking — no code path of payment
creation sets any status to Paid, so payment creation alone can never arm
the already-paid guard. -/
theorem C10_success_records_reference_but_never_sets_paid
    (db : DB) (user : UserRow) (bid : Nat) (m : PaymentMethod)
    (npid : Nat) (booking : Booking)
    (hb : db.bookings bid = some booking)
    (hown : booking.userId = user.id)
    (hnopaid : findPaidPayment db.payments bid = none) :
    (∀ pr : ProviderResult, pr.success = true →
      create_payment db user bid m pr npid =
        (.ok { paymentId := npid, amount := booking.totalPrice, currency := "AED" },
         { db with payments := db.payments ++
             [{ id := npid, bookingId := bid, amount := booking.totalPrice,
                currency := "AED", paymentMethod := m, status := .pending,
                failureReason := none,
                externalReference :=
                  match m with
                  | .stripe => pr.paymentIntentId
                  | .paypal => pr.orderId
                  | .paytabs => pr.tranRef }] }, true)) ∧
    (∀ pr : ProviderResult,
      ((create_payment db user bid m pr npid).2.1).bookings = db.bookings) ∧
    (∀ pr : ProviderResult,
      findPaidPayment ((create_payment db user bid m pr npid).2.1).payments bid = none) := by
  have hmain : ∀ pr : ProviderResult, pr.success = true →
      create_payment db user bid m pr npid =
        (.ok { paymentId := npid, amount := booking.totalPrice, currency := "AED" },
         { db with payments := db.payments ++
             [{ id := npid, bookingId := bid, amount := booking.totalPrice,
                currency := "AED", paymentMethod := m, status := .pending,
                failureReason := none,
                externalReference :=
                  match m with
                  | .stripe => pr.paymentIntentId
                  | .paypal => pr.orderId
                  | .paytabs => pr.tranRef }] }, true) := by
    intro pr hsucc
    unfold create_payment
    rw [hb]
    simp only [hown, ne_eq, not_true_eq_false, if_false, hnopaid, Option.isSome_none,
      Bool.false_eq_true]
    rw [if_neg (by simp [hsucc])]
  have hfailEq : ∀ pr : ProviderResult, pr.success = false →
      create_payment db user bid m pr npid =
        (.error (.badRequest (.paymentFailed (pr.error.getD "Unknown error"))),
         { db with payments := db.payments ++
             [{ id := npid, bookingId := bid, amount := booking.totalPrice,
                currency := "AED", paymentMethod := m, status := .failed,
                failureReason := some (pr.error.getD "Unknown error"),
                externalReference := none }] }, true) := by
    intro pr hfail
    unfold create_payment
    rw [hb]
    simp only [hown, ne_eq, not_true_eq_false, if_false, hnopaid, Option.isSome_none,
      Bool.false_eq_true]
    rw [if_pos hfail]
  refine ⟨hmain, ?_, ?_⟩
  · intro pr
    by_cases hs : pr.success = false
    · rw [hfailEq pr hs]
    · rw [hmain pr (by revert hs; cases pr.success <;> simp)]
  · intro pr
    by_cases hs : pr.success = false
    · rw [hfailEq pr hs]
      unfold findPaidPayment at hnopaid ⊢
      rw [List.find?_append, hnopaid]
      simp
    · rw [hmain pr (by revert hs; cases pr.success <;> simp)]
      unfold findPaidPayment at hnopaid ⊢
      rw [List.find?_append, hnopaid]
      simp

/-- Witness for C10: a successful Stripe provider result against `dbA`
yields a Pending payment row carrying the payment-intent id, and the
already-paid guard stays disarmed. -/
theorem C10_success_records_reference_but_never_sets_paid_witness :
    create_payment dbA ownerUser 1 .stripe
        { success := true, paymentIntentId := some "pi_42" } 4 =
      (.ok { paymentId := 4, amount := bookingA.totalPrice, currency := "AED" },
       { dbA with payments := dbA.payments ++
           [{ id := 4, bookingId := 1, amount := bookingA.totalPrice,
              currency := "AED", paymentMethod := .stripe, status := .pending,
              failureReason := none, externalReference := some "pi_42" }] }, true) ∧
    findPaidPayment ((create_payment dbA ownerUser 1 .stripe
        { success := true, paymentIntentId := some "pi_42" } 4).2.1).payments 1 = none :=
  ⟨(C10_success_records_reference_but_never_sets_paid dbA ownerUser 1 .stripe 4 bookingA
      rfl rfl rfl).1 { success := true, paymentIntentId := some "pi_42" } rfl,
   (C10_success_records_reference_but_never_sets_paid dbA ownerUser 1 .stripe 4 bookingA
      rfl rfl rfl).2.2 { success := true, paymentIntentId := some "pi_42" }⟩

/-- C7 (amended): `cancel_booking` fails with NotFound when the booking is
absent, with Forbidden when the requester is not the booking's owning
user — regardless of the requester's role, so staff and admins are
rejected too — and with the invalid-state error when the status is
already Cancelled or Completed; in all three failure cases the returned
state is exactly the input state. -/
theorem C7_cancel_failure_taxonomy_owner_only
    (db : DB) (user : UserRow) (bid now : Nat) :
    (db.bookings bid = none →
       cancel_booking db user bid now = (.error (.notFound "Booking not found"), db)) ∧
    (∀ b : Booking, db.bookings bid = some b → b.userId ≠ user.id →
       cancel_booking db user bid now =
         (.error (.forbidden "Not authorized to cancel this booking"), db)) ∧
    (∀ b : Booking, db.bookings bid = some b → b.userId = user.id →
       (b.status = .cancelled ∨ b.status = .completed) →
       cancel_booking db user bid now =
         (.error (.badRequest .bookingCannotBeCancelled), db)) :=
  ⟨fun h => cancel_booking_not_found_eq db user bid now h,
   fun b hb hown => cancel_booking_forbidden_eq db user bid now b hb hown,
   fun b hb hown hst => cancel_booking_invalid_state_eq db user bid now b hb hown hst⟩

/-- Counterexample to C7 as stated: the claim allows Forbidden only when
the requester is neither the owning user nor staff, but the code checks
ownership alone — a staff requester who does not own the (cancellable,
Pending) booking is rejected with Forbidden, with no state change. -/
theorem C7_counterexample_staff_requester_rejected :
    staffUser.role = .staff ∧
    bookingA.status = .pending ∧
    cancel_booking dbA staffUser 1 5 =
      (.error (.forbidden "Not authorized to cancel this booking"), dbA) :=
  ⟨rfl, rfl, cancel_booking_forbidden_eq dbA staffUser 1 5 bookingA rfl (by decide)⟩

/-- Witness for the amended C7: all three failure paths exercised on
concrete databases, each leaving the state untouched. -/
theorem C7_cancel_failure_taxonomy_owner_only_witness :
    cancel_booking dbA ownerUser 99 5 = (.error (.notFound "Booking not found"), dbA) ∧
    cancel_booking dbA { id := 3, role := .customer } 1 5 =
      (.error (.forbidden "Not authorized to cancel this booking"), dbA) ∧
    cancel_booking
        { packages := dbA.packages
          bookings := fun i => if i = 1 then some { bookingA with status := .cancelled } else none
          payments := [] } ownerUser 1 5 =
      (.error (.badRequest .bookingCannotBeCancelled),
       { packages := dbA.packages
         bookings := fun i => if i = 1 then some { bookingA with status := .cancelled } else none
         payments := [] }) :=
  ⟨(C7_cancel_failure_taxonomy_owner_only dbA ownerUser 99 5).1 rfl,
   (C7_cancel_failure_taxonomy_owner_only dbA { id := 3, role := .customer } 1 5).2.1
     bookingA rfl (by decide),
   (C7_cancel_failure_taxonomy_owner_only
       { packages := dbA.packages
         bookings := fun i => if i = 1 then some { bookingA with status := .cancelled } else none
         payments := [] } ownerUser 1 5).2.2
     { bookingA with status := .cancelled } rfl rfl (Or.inl rfl)⟩

/-- A concrete unread notification row targeted at user 1. -/
def notifA : Notification :=
  { id := 1, userId := some 1, status := .unread, sentAt := none, readAt := none }

/-- A concrete user with both an email and a mobile destination. -/
def nUserA : NotifUser :=
  { id := 1, email := some "user@example.com", mobile := some "0501234567" }

/-- A concrete notification-service database holding `notifA` and `nUserA`. -/
def ndbA : NotifDB :=
  { notifications := fun i => if i = 1 then some notifA else none
    users := fun i => if i = 1 then some nUserA else none }

/-- C8: delivery failure is invisible to the triggering operation.  The
cancellation route returns the same outcome and state whatever the email
attempt does (the `try/except: pass` swallow), and in particular still
returns the success response whenever the cancellation itself committed;
and `send_notification` returns `True` for any channel outcomes, only
stamps `sent_at` on the persisted Notification row, and leaves its status
field — Unread — untouched. -/
theorem C8_delivery_failure_never_propagates :
    (∀ (db : DB) (user : UserRow) (bid now : Nat) (o1 o2 : DeliveryOutcome),
       cancel_booking_route db user bid now o1 = cancel_booking_route db user bid now o2) ∧
    (∀ (db db' : DB) (user : UserRow) (bid now : Nat) (o : DeliveryOutcome),
       cancel_booking db user bid now = (.ok (), db') →
       cancel_booking_route db user bid now o = (.ok "Booking cancelled successfully", db')) ∧
    (∀ (ndb : NotifDB) (nid now : Nat) (e s : DeliveryOutcome) (n : Notification),
       ndb.notifications nid = some n →
       (send_notification ndb nid now e s).1 = true ∧
       ((send_notification ndb nid now e s).2).notifications nid =
         some { n with sentAt := some now } ∧
       ({ n with sentAt := some now } : Notification).status = n.status) := by
  refine ⟨?_, ?_, ?_⟩
  · intro db user bid now o1 o2
    unfold cancel_booking_route
    cases h : cancel_booking db user bid now with
    | mk r db' =>
      cases r with
      | error e => rfl
      | ok u => cases o1 <;> cases o2 <;> rfl
  · intro db db' user bid now o h
    unfold cancel_booking_route
    rw [h]
    cases o <;> rfl
  · intro ndb nid now e s n hn
    unfold send_notification
    rw [hn]
    exact ⟨rfl, storePut_same _ _ _, rfl⟩

/-- Witness for C8: with the cancellation of `bookingA` by its owner, an
email attempt that raises produces the same route outcome as one that
succeeds, and still the success response; `send_notification` with both
channels raising returns `True` and leaves `notifA` Unread. -/
theorem C8_delivery_failure_never_propagates_witness :
    cancel_booking_route dbA ownerUser 1 30 (.raised "smtp down") =
      cancel_booking_route dbA ownerUser 1 30 .ok ∧
    cancel_booking_route dbA ownerUser 1 30 (.raised "smtp down") =
      (.ok "Booking cancelled successfully", (cancel_booking dbA ownerUser 1 30).2) ∧
    (send_notification ndbA 1 40 (.raised "smtp down") (.raised "sms down")).1 = true ∧
    ((send_notification ndbA 1 40 (.raised "smtp down") (.raised "sms down")).2).notifications 1 =
      some { notifA with sentAt := some 40 } ∧
    ({ notifA with sentAt := some 40 } : Notification).status = notifA.status :=
  ⟨C8_delivery_failure_never_propagates.1 dbA ownerUser 1 30 (.raised "smtp down") .ok,
   C8_delivery_failure_never_propagates.2.1 dbA (cancel_booking dbA ownerUser 1 30).2
     ownerUser 1 30 (.raised "smtp down") rfl,
   C8_delivery_failure_never_propagates.2.2 ndbA 1 40
     (.raised "smtp down") (.raised "sms down") notifA rfl⟩

/-- A package with exactly one open slot, for the contention scenario of
two simultaneous booking requests. -/
def racePkg : Package :=
  { id := 1, price := 500, minTravelers := 1, maxTravelers := 50,
    availability := 1, isActive := true, updatedAt := none }

/-- Initial state of the contention scenario: one package, no bookings. -/
def raceDB : DB :=
  { packages := fun i => if i = 1 then some racePkg else none
    bookings := fun _ => none
    payments := [] }

/-- Each of the two concurrent requests asks for 1 traveler on package 1. -/
def raceReq : BookingRequest := { packageId := 1, travelDate := 7, travelersCount := 1 }

/-- The session snapshot both requests obtain when their `SELECT` runs
before either transaction commits: the package row with availability 1. -/
def raceSnap : Option Package := loadActivePackage raceDB 1

/-- First request commits: validates against its snapshot and writes
availability `1 - 1 = 0` computed from that snapshot. -/
def raceStep1 : Except ApiError BookingOk × DB :=
  create_booking_commit raceDB raceSnap 1 raceReq 10 "DTA-A"

/-- Second request commits after the first, but validates against the
stale snapshot it read before the first commit (the handler issues a
plain `SELECT` with no row lock and no conditional `UPDATE`, so under
concurrent requests — e.g. two server workers on one database — nothing
reruns its availability check at commit time). -/
def raceStep2 : Except ApiError BookingOk × DB :=
  create_booking_commit raceStep1.2 raceSnap 2 raceReq 11 "DTA-B"

/-- C1 fails on the code: with availability 1 and two concurrent
one-traveler create requests whose package reads both precede the first
commit, BOTH requests succeed — 2 travelers reserved against 1 slot —
because the availability check and the decrement are a read-then-write in
application code, not one atomic unit.  The final availability is 0 via a
lost update, so the claimed outcome (exactly one success, the other
rejected with the capacity error) does not hold. -/
theorem C1_read_then_write_race_overbooks :
    racePkg.availability = 1 ∧
    raceStep1.1 = .ok { bookingId := 10, bookingReference := "DTA-A", totalPrice := 500 } ∧
    raceStep2.1 = .ok { bookingId := 11, bookingReference := "DTA-B", totalPrice := 500 } ∧
    (∃ b, (raceStep2.2).bookings 10 = some b ∧ b.travelersCount = 1) ∧
    (∃ b, (raceStep2.2).bookings 11 = some b ∧ b.travelersCount = 1) ∧
    (∃ p, (raceStep2.2).packages 1 = some p ∧ p.availability = 0) := by
  refine ⟨rfl, by norm_num [raceStep1, raceStep2, raceSnap, raceDB, racePkg, raceReq,
    create_booking_commit, loadActivePackage, storePut],
    by norm_num [raceStep1, raceStep2, raceSnap, raceDB, racePkg, raceReq,
      create_booking_commit, loadActivePackage, storePut],
    ⟨_, rfl, rfl⟩, ⟨_, rfl, rfl⟩, ⟨_, rfl, rfl⟩⟩
